import Mathlib

/-
  Shallow embedding of src/app.py, a small interactive shell
  (tokenizer, redirection splitter, completion engine, builtins,
  pipeline executor, history store), together with theorems that
  settle the frozen claims about it.
-/

namespace MiniShell

/- Character constants, written by code point so that the quoting
   characters themselves do not appear in the Lean source text. -/

def squote : Char := Char.ofNat 39

def dquote : Char := Char.ofNat 34

def bslash : Char := Char.ofNat 92

def btick : Char := Char.ofNat 96

/- Python str.isspace, used by the tokenizer at src/app.py line 97.
   The exact set of code points CPython accepts: 9-13 (tab, LF, VT,
   FF, CR), 28-31 (file/group/record/unit separators), 32 (space),
   133 (NEL), 160 (NBSP), 5760 (Ogham space mark), 8192-8202
   (typographic spaces), 8232 and 8233 (line/paragraph separators),
   8239 (narrow NBSP), 8287 (medium mathematical space) and 12288
   (ideographic space). -/
def pyIsSpace (c : Char) : Bool :=
  (9 ≤ c.toNat && c.toNat ≤ 13) || (28 ≤ c.toNat && c.toNat ≤ 32) ||
  c.toNat == 133 || c.toNat == 160 || c.toNat == 5760 ||
  (8192 ≤ c.toNat && c.toNat ≤ 8202) || c.toNat == 8232 ||
  c.toNat == 8233 || c.toNat == 8239 || c.toNat == 8287 ||
  c.toNat == 12288

/- The characters that terminate or transform a token in normal mode:
   whitespace, the two quotes and the backslash (src/app.py lines 97-118). -/
def tokSpecial (c : Char) : Bool :=
  pyIsSpace c || c == squote || c == dquote || c == bslash

/- The four characters a backslash escapes inside double quotes
   (src/app.py line 87). -/
def isDqEscape (d : Char) : Bool :=
  d == dquote || d == bslash || d == '$' || d == btick

/- End-of-token bookkeeping: `if current: tokens.append(...)`
   (src/app.py lines 98-99 and 121-122). -/
def finishTok (cur : List Char) (acc : List String) : List String :=
  if cur.isEmpty then acc else acc ++ [String.mk cur]

/- Tokenizer mode: the booleans in_single / in_double of
   parse_command_line are mutually exclusive, so a three-state mode. -/
inductive PMode where
  | norm : PMode
  | sing : PMode
  | doub : PMode
deriving DecidableEq

/- The character-walking loop of parse_command_line
   (src/app.py lines 63-123), with the position index replaced by
   structural recursion over the remaining characters.
   - single-quoted: every char literal, squote exits (lines 71-77)
   - double-quoted: dquote exits; backslash escapes only the four
     characters of isDqEscape, otherwise both chars kept (lines 78-96);
     a backslash at end of line is dropped (the `if i < len` guard)
   - normal: whitespace finalizes the token; the greedy inner
     whitespace-skipping while loop of lines 101-103 has exactly the
     effect of re-entering the outer loop with an empty current token
     (each further space flushes nothing), which is how it is rendered
     here; quotes switch mode; backslash takes the next char literally,
     or is dropped at end of line (lines 113-118). -/
def parseLoop : List Char → PMode → List Char → List String → List String
  | [], _, cur, acc => finishTok cur acc
  | c :: rest, PMode.sing, cur, acc =>
      if c = squote then parseLoop rest PMode.norm cur acc
      else parseLoop rest PMode.sing (cur ++ [c]) acc
  | c :: rest, PMode.doub, cur, acc =>
      if c = dquote then parseLoop rest PMode.norm cur acc
      else if c = bslash then
        match rest with
        | [] => finishTok cur acc
        | d :: rest2 =>
            if isDqEscape d then parseLoop rest2 PMode.doub (cur ++ [d]) acc
            else parseLoop rest2 PMode.doub (cur ++ [bslash, d]) acc
      else parseLoop rest PMode.doub (cur ++ [c]) acc
  | c :: rest, PMode.norm, cur, acc =>
      if pyIsSpace c then
        parseLoop rest PMode.norm [] (finishTok cur acc)
      else if c = squote then parseLoop rest PMode.sing cur acc
      else if c = dquote then parseLoop rest PMode.doub cur acc
      else if c = bslash then
        match rest with
        | [] => finishTok cur acc
        | d :: rest2 => parseLoop rest2 PMode.norm (cur ++ [d]) acc
      else parseLoop rest PMode.norm (cur ++ [c]) acc

/- parse_command_line (src/app.py lines 63-123). -/
def parse_command_line (line : String) : List String :=
  parseLoop line.data PMode.norm [] []

/- Python str.startswith / character-level slicing, modelled on the
   character list of the string (all operators involved are ASCII). -/
def isPrefixCh : List Char → List Char → Bool
  | [], _ => true
  | _ :: _, [] => false
  | a :: as, b :: bs => a == b && isPrefixCh as bs

def strStartsWith (s p : String) : Bool := isPrefixCh p.data s.data

def strDrop (s : String) (n : Nat) : String := String.mk (s.data.drop n)

/- The fixed builtin table (src/app.py line 10). -/
def builtins : List String := ["echo", "exit", "type", "pwd", "cd", "history"]

/- Result of split_redirection (src/app.py line 185):
   (cmd_args, stdout_redir_file, stdout_append, stderr_redir_file,
   stderr_append).  Python None maps to none; note that the attached
   forms can set a file to `some ""` exactly as the Python code can set
   it to the empty string. -/
structure RSplit where
  cmd_args : List String
  stdout_redir_file : Option String
  stdout_append : Bool
  stderr_redir_file : Option String
  stderr_append : Bool
deriving DecidableEq

/- What the attached-form chain does with the token `part`: set a
   stream spec or append to argv. -/
inductive RAction where
  | setOut (f : String) (app : Bool) : RAction
  | setErr (f : String) (app : Bool) : RAction
  | arg : RAction
deriving DecidableEq

/- The attached-form chain (src/app.py lines 158-183): startswith
   checks in source order.  There is no branch for a bare ">" prefix,
   so a token starting with ">" but not ">>" reaches the final
   `cmd_args.append` (line 183). -/
def classifyAttached (part : String) : RAction :=
  if strStartsWith part "1>>" then RAction.setOut (strDrop part 3) true
  else if strStartsWith part ">>" then RAction.setOut (strDrop part 2) true
  else if strStartsWith part "1>" then RAction.setOut (strDrop part 2) false
  else if strStartsWith part "2>>" then RAction.setErr (strDrop part 3) true
  else if strStartsWith part "2>" then RAction.setErr (strDrop part 2) false
  else RAction.arg

/- Applying the attached-form chain to the loop state: the attached
   branches consume only the current token and continue. -/
def applyAttached (part : String) (acc : List String) (so : Option String)
    (sa : Bool) (eo : Option String) (ea : Bool) :
    List String × Option String × Bool × Option String × Bool :=
  match classifyAttached part with
  | RAction.setOut f ap => (acc, some f, ap, eo, ea)
  | RAction.setErr f ap => (acc, so, sa, some f, ap)
  | RAction.arg => (acc ++ [part], so, sa, eo, ea)

/- The while loop of split_redirection (src/app.py lines 132-184),
   with the accumulated state threaded explicitly (later
   specifications overwrite earlier ones).  The standalone equality
   checks fire only when a next token exists (`i + 1 < len(parts)`,
   here the two-element pattern); otherwise control falls through to
   the startswith chain. -/
def splitRedLoop : List String → List String → Option String → Bool →
    Option String → Bool → RSplit
  | [], acc, so, sa, eo, ea => ⟨acc, so, sa, eo, ea⟩
  | [part], acc, so, sa, eo, ea =>
      match applyAttached part acc so sa eo ea with
      | (acc2, so2, sa2, eo2, ea2) => ⟨acc2, so2, sa2, eo2, ea2⟩
  | part :: tgt :: rest2, acc, so, sa, eo, ea =>
      if part = "1>>" ∨ part = ">>" then
        splitRedLoop rest2 acc (some tgt) true eo ea
      else if part = "1>" ∨ part = ">" then
        splitRedLoop rest2 acc (some tgt) false eo ea
      else if part = "2>>" then splitRedLoop rest2 acc so sa (some tgt) true
      else if part = "2>" then splitRedLoop rest2 acc so sa (some tgt) false
      else
        match applyAttached part acc so sa eo ea with
        | (acc2, so2, sa2, eo2, ea2) =>
            splitRedLoop (tgt :: rest2) acc2 so2 sa2 eo2 ea2

/- split_redirection (src/app.py lines 125-185). -/
def split_redirection (parts : List String) : RSplit :=
  splitRedLoop parts [] none false none false

/- longestCommonPrefix (src/app.py lines 49-60): walk index i below
   the minimum length, stop at the first position where not all strings
   agree with strs[0]. -/
def charAtAll (ls : List (List Char)) (i : Nat) (c : Char) : Bool :=
  ls.all (fun s => s.get? i == some c)

/- The `for i in range(min_len)` loop, rendered with the number of
   remaining iterations as the recursion fuel (i runs 0,1,...). -/
def lcpGo (ls : List (List Char)) (first : List Char) :
    Nat → Nat → List Char
  | _, 0 => []
  | i, remaining + 1 =>
      match first.get? i with
      | some c =>
          if charAtAll ls i c then c :: lcpGo ls first (i + 1) remaining
          else []
      | none => []

def longestCommonPrefix (strs : List String) : String :=
  match strs with
  | [] => ""
  | s0 :: rest =>
      let ls := (s0 :: rest).map String.data
      let minLen := (rest.map (fun s => s.data.length)).foldl min s0.data.length
      String.mk (lcpGo ls s0.data 0 minLen)

/- Python's sorted() on strings: ascending lexicographic order by
   code point, modelled as insertion sort. -/
def ltCh : List Char → List Char → Bool
  | [], [] => false
  | [], _ :: _ => true
  | _ :: _, [] => false
  | a :: as, b :: bs => if a < b then true else if b < a then false else ltCh as bs

def strLt (a b : String) : Bool := ltCh a.data b.data

def insertSorted (x : String) : List String → List String
  | [] => [x]
  | y :: ys => if strLt x y then x :: y :: ys else y :: insertSorted x ys

def sortStrings (l : List String) : List String := l.foldr insertSorted []

/- os.path.join for the completer and cd (src/app.py lines 228, 358):
   an absolute second component wins; otherwise a separator is inserted
   unless the first part is empty or already ends with one. -/
def strEndsWith (s p : String) : Bool := p.data.isSuffixOf s.data

def pyJoin (d e : String) : String :=
  if strStartsWith e "/" then e
  else if d = "" then e
  else if strEndsWith d "/" then d ++ e
  else d ++ "/" ++ e

/- _complete_filenames (src/app.py lines 214-237), with the filesystem
   abstracted as a listdir oracle (none = OSError) and the current
   working directory as a parameter. -/
def complete_filenames (listdir : String → Option (List String))
    (cwd : String) (p : String) : List String :=
  if p.data.contains '/' then
    let rev := p.data.reverse
    let basepart := String.mk (rev.takeWhile (fun c => c ≠ '/')).reverse
    let dirpart := String.mk ((rev.dropWhile (fun c => c ≠ '/')).drop 1).reverse
    let dirpath := if dirpart = "" then "/" else dirpart
    match listdir dirpath with
    | none => []
    | some entries =>
        sortStrings ((entries.filter (fun e => strStartsWith e basepart)).map
          (fun e => pyJoin dirpart e))
  else
    match listdir cwd with
    | none => []
    | some entries => sortStrings (entries.filter (fun e => strStartsWith e p))

/- The candidate set of the no-separator branch of
   external_and_builtin_completer (src/app.py lines 244-250):
   builtins whose name starts with the prefix, then cached PATH
   executables not shadowed by a builtin, sorted. -/
def completer_matches (execs : List String) (text : String) : List String :=
  sortStrings (builtins.filter (fun b => strStartsWith b text) ++
    execs.filter (fun e => strStartsWith e text && !(builtins.contains e)))

/- The shared return protocol of the completer
   (src/app.py lines 251-263). -/
def completer_protocol (cands : List String) (text : String)
    (state : Nat) : Option String :=
  match cands with
  | [] => none
  | [m] => if state = 0 then some (m ++ " ") else none
  | _ :: _ :: _ =>
      let lcp := longestCommonPrefix cands
      if state = 0 ∧ lcp ≠ "" ∧ text.length < lcp.length then some lcp
      else if state < cands.length then cands.get? state
      else none

/- external_and_builtin_completer (src/app.py lines 239-263), with the
   PATH-executable cache contents and the filesystem passed in as
   parameters. -/
def external_and_builtin_completer (listdir : String → Option (List String))
    (cwd : String) (execs : List String) (text : String)
    (state : Nat) : Option String :=
  let cands :=
    if text.data.contains '/' then complete_filenames listdir cwd text
    else completer_matches execs text
  completer_protocol cands text state

/- Observable events of pipeline / command execution.  File system and
   process effects are abstracted into a trace; an openFailed event
   stands for the "Error preparing <path>: <e>" report written to
   stderr by open_redir_file (src/app.py line 304). -/
inductive PEvent where
  | errMsg (msg : String) : PEvent
  | fileOpened (path : String) (append : Bool) : PEvent
  | openFailed (path : String) : PEvent
  | pipeCreated : PEvent
  | launched (i : Nat) : PEvent
  | reaped (i : Nat) : PEvent
  | fileClosed (path : String) : PEvent
  | ranBuiltin (name : String) : PEvent
deriving DecidableEq

/- Python truthiness of a redirection field: both None and the empty
   string count as "no redirection" downstream. -/
def redirPath : Option String → Option String
  | some p => if p = "" then none else some p
  | none => none

/- open_redir_file (src/app.py lines 297-305), with file-open success
   decided by the openOk oracle.  Returns the events it emits and the
   handle (the path) it stores into the stage record; on failure it
   reports and returns none -- it does NOT abort. -/
def open_redir_file (openOk : String → Bool) (o : Option String)
    (append : Bool) : List PEvent × Option String :=
  match redirPath o with
  | none => ([], none)
  | some p =>
      if openOk p then ([PEvent.fileOpened p append], some p)
      else ([PEvent.openFailed p], none)

/- The resolution loop of execute_pipeline (src/app.py lines 291-296):
   the first non-builtin stage whose command find_executable cannot
   resolve, if any. -/
def firstUnresolved (resolve : String → Option String) :
    List RSplit → Option String
  | [] => none
  | p :: rest =>
      match p.cmd_args with
      | [] => firstUnresolved resolve rest
      | name :: _ =>
          if builtins.contains name then firstUnresolved resolve rest
          else
            match resolve name with
            | some _ => firstUnresolved resolve rest
            | none => some name

/- execute_pipeline (src/app.py lines 270-485) as an event trace.
   Phases in source order: parse every stage (an empty argv aborts with
   no effects; the Python loop returns at the first empty argv, which
   emits nothing either way); resolve externals (abort on failure);
   open redirection files for every stage (failures only report);
   create the N-1 pipes; fork/spawn every stage left to right; close
   pipe ends; wait on every child; close the opened redirection files.
   Fork/spawn themselves are assumed to succeed (the OSError recovery
   path at lines 442-459 is not modelled). -/
def execute_pipeline_model (resolve : String → Option String)
    (openOk : String → Bool) (stages_parts : List (List String)) :
    List PEvent :=
  if stages_parts.isEmpty then []
  else
    let parsed := stages_parts.map split_redirection
    if parsed.any (fun p => p.cmd_args.isEmpty) then []
    else
      match firstUnresolved resolve parsed with
      | some name => [PEvent.errMsg (name ++ ": command not found")]
      | none =>
          let openEvents := parsed.flatMap (fun p =>
            (open_redir_file openOk p.stdout_redir_file p.stdout_append).1 ++
            (open_redir_file openOk p.stderr_redir_file p.stderr_append).1)
          let n := parsed.length
          let pipeEvents := List.replicate (n - 1) PEvent.pipeCreated
          let launchEvents := (List.range n).map PEvent.launched
          let reapEvents := (List.range n).map PEvent.reaped
          let closeEvents := parsed.flatMap (fun p =>
            (((open_redir_file openOk p.stdout_redir_file p.stdout_append).2).toList ++
             ((open_redir_file openOk p.stderr_redir_file p.stderr_append).2).toList).map
              PEvent.fileClosed)
          openEvents ++ pipeEvents ++ launchEvents ++ reapEvents ++ closeEvents

/- The pre-opening of redirection targets in the standalone command
   path (src/app.py lines 562-577): open(file, mode).close() creates or
   truncates the target; a failure writes "Error preparing <file>: <e>"
   to stderr and processing continues. -/
def touchFile (openOk : String → Bool) (o : Option String)
    (append : Bool) : List PEvent :=
  match redirPath o with
  | none => []
  | some p =>
      if openOk p then [PEvent.fileOpened p append, PEvent.fileClosed p]
      else [PEvent.errMsg ("Error preparing " ++ p)]

/- The standalone (no pipe separator) command path of main
   (src/app.py lines 553-763) as an event trace: split redirections,
   pre-touch the stderr then the stdout target, then dispatch.
   Builtins are summarised as one ranBuiltin event; for external
   commands the not-found check happens only after the pre-touch
   (lines 740-763), and on success the redirection files are opened a
   second time around subprocess.run and closed afterwards.  A failing
   re-open raises and is reported as "Error executing <command>: <e>"
   (line 761). -/
def main_single_model (resolve : String → Option String)
    (openOk : String → Bool) (parts : List String) : List PEvent :=
  let r := split_redirection parts
  match r.cmd_args with
  | [] => []
  | command :: _ =>
      let prep := touchFile openOk r.stderr_redir_file r.stderr_append ++
                  touchFile openOk r.stdout_redir_file r.stdout_append
      if builtins.contains command then prep ++ [PEvent.ranBuiltin command]
      else
        match resolve command with
        | none => prep ++ [PEvent.errMsg (command ++ ": command not found")]
        | some _ =>
            match redirPath r.stdout_redir_file, redirPath r.stderr_redir_file with
            | some po, some pe =>
                if openOk po then
                  if openOk pe then
                    prep ++ [PEvent.fileOpened po r.stdout_append,
                             PEvent.fileOpened pe r.stderr_append,
                             PEvent.launched 0, PEvent.reaped 0,
                             PEvent.fileClosed po, PEvent.fileClosed pe]
                  else prep ++ [PEvent.fileOpened po r.stdout_append,
                                PEvent.errMsg ("Error executing " ++ command)]
                else prep ++ [PEvent.errMsg ("Error executing " ++ command)]
            | some po, none =>
                if openOk po then
                  prep ++ [PEvent.fileOpened po r.stdout_append,
                           PEvent.launched 0, PEvent.reaped 0,
                           PEvent.fileClosed po]
                else prep ++ [PEvent.errMsg ("Error executing " ++ command)]
            | none, some pe =>
                if openOk pe then
                  prep ++ [PEvent.fileOpened pe r.stderr_append,
                           PEvent.launched 0, PEvent.reaped 0,
                           PEvent.fileClosed pe]
                else prep ++ [PEvent.errMsg ("Error executing " ++ command)]
            | none, none => prep ++ [PEvent.launched 0, PEvent.reaped 0]

/- The cd builtin in the standalone path (src/app.py lines 627-662).
   The filesystem is the isdir oracle; chdirOk models the os.chdir
   call inside the try block succeeding.  Result: the new working
   directory and the stderr messages emitted. -/
def cdErr (d : String) : String :=
  "cd: " ++ d ++ ": No such file or directory"

structure CdResult where
  newCwd : String
  errs : List String
deriving DecidableEq

def cd_builtin (isdir : String → Bool) (chdirOk : String → Bool)
    (home : Option String) (cwd : String) (args : List String) : CdResult :=
  match args with
  | [] => ⟨cwd, []⟩
  | directory :: _ =>
      if directory = "~" then
        match home with
        | some h =>
            if h ≠ "" ∧ isdir h then
              if chdirOk h then ⟨h, []⟩ else ⟨cwd, [cdErr directory]⟩
            else ⟨cwd, [cdErr directory]⟩
        | none => ⟨cwd, [cdErr directory]⟩
      else if strStartsWith directory "/" then
        if isdir directory then
          if chdirOk directory then ⟨directory, []⟩
          else ⟨cwd, [cdErr directory]⟩
        else ⟨cwd, [cdErr directory]⟩
      else
        let target := pyJoin cwd directory
        if isdir target then
          if chdirOk target then ⟨target, []⟩ else ⟨cwd, [cdErr directory]⟩
        else ⟨cwd, [cdErr directory]⟩

/- The history store (src/app.py lines 13-14) plus the contents of the
   active `history -a` target file, as lines. -/
structure HistState where
  log : List String
  watermark : Nat
  file : List String
deriving DecidableEq

/- The successful `history -a <file>` operation (src/app.py lines
   701-712): append exactly history_list[last_append_idx:] to the file,
   then set last_append_idx to len(history_list). -/
def history_append (st : HistState) : HistState :=
  ⟨st.log, st.log.length, st.file ++ st.log.drop st.watermark⟩

/- Python str.strip() for ASCII whitespace. -/
def pyStrip (s : String) : List Char :=
  ((s.data.dropWhile pyIsSpace).reverse.dropWhile pyIsSpace).reverse

/- Python int(str): optional surrounding whitespace, optional sign,
   then decimal digits (digit-group underscores are not modelled).
   Failure (ValueError) is none. -/
def digitsVal (ds : List Char) : Option Nat :=
  if ds.isEmpty then none
  else if ds.all Char.isDigit then
    some (ds.foldl (fun acc c => acc * 10 + (c.toNat - 48)) 0)
  else none

def pyParseInt (s : String) : Option Int :=
  match pyStrip s with
  | [] => none
  | c :: rest =>
      if c = '-' then (digitsVal rest).map (fun n => -(n : Int))
      else if c = '+' then (digitsVal rest).map (fun n => (n : Int))
      else (digitsVal (c :: rest)).map (fun n => (n : Int))

/- The numbered output lines of the history printing branch
   (src/app.py lines 714-739): four spaces, the 1-based index, two
   spaces, the entry. -/
def numberFrom : Int → List String → List String
  | _, [] => []
  | i, e :: es => ("    " ++ toString i ++ "  " ++ e) :: numberFrom (i + 1) es

def history_lines (hist : List String) (args : List String) : List String :=
  let nArg : Option Int :=
    match args with
    | [] => none
    | a :: _ => pyParseInt a
  let total : Int := (hist.length : Int)
  let start : Int :=
    match nArg with
    | none => 1
    | some n => max 1 (total - n + 1)
  numberFrom start (hist.drop (start - 1).toNat)

/- What a `history` invocation does (src/app.py lines 664-739): the
   three file modes each require a file argument (args[0] is the flag
   AND len(args) > 1); everything else prints. -/
inductive HistEffect where
  | readF (f : String) : HistEffect
  | writeF (f : String) : HistEffect
  | appendF (f : String) : HistEffect
  | printLines (ls : List String) : HistEffect
deriving DecidableEq

def history_builtin (hist : List String) (args : List String) : HistEffect :=
  match args with
  | "-r" :: f :: _ => HistEffect.readF f
  | "-w" :: f :: _ => HistEffect.writeF f
  | "-a" :: f :: _ => HistEffect.appendF f
  | _ => HistEffect.printLines (history_lines hist args)

/- Python " ".join(args). -/
def joinSp : List String → String
  | [] => ""
  | [a] => a
  | a :: b :: t => a ++ " " ++ joinSp (b :: t)

/- ------------------------------------------------------------------ -/
/- Shared helper lemmas                                               -/
/- ------------------------------------------------------------------ -/

theorem isPrefixCh_true_iff (p l : List Char) :
    isPrefixCh p l = true ↔ ∃ l2, l = p ++ l2 := by
  induction p generalizing l with
  | nil => simp [isPrefixCh]
  | cons a as ih =>
      cases l with
      | nil => simp [isPrefixCh]
      | cons b bs =>
          simp only [isPrefixCh, Bool.and_eq_true, beq_iff_eq, ih,
            List.cons_append, List.cons.injEq]
          constructor
          · rintro ⟨hab, l2, h2⟩
            exact ⟨l2, hab.symm, h2⟩
          · rintro ⟨l2, hab, h2⟩
            exact ⟨hab.symm, l2, h2⟩

theorem history_append_idem (st : HistState) :
    history_append (history_append st) = history_append st := by
  cases st
  simp [history_append, List.drop_length]

/- ------------------------------------------------------------------ -/
/- Claim theorems                                                     -/
/- ------------------------------------------------------------------ -/

/-- C1 (counterexample).  The claim says a standalone redirection
operator with no following target is silently ignored.  In the code a
trailing bare ">" is not recognized at all and lands in argv, and a
trailing ">>" is taken by the attached-form branch, which overwrites
the stdout spec with an empty path (here discarding the earlier target
"foo"). -/
theorem C1_counterexample :
    (split_redirection ["cmd", ">"]).cmd_args = ["cmd", ">"] ∧
    (split_redirection ["cmd", ">", "foo", ">>"]).stdout_redir_file =
      some "" :=
  ⟨rfl, rfl⟩

/-- C1 (amended).  A trailing standalone operator other than bare ">"
(`>>`, `1>>`, `1>`, `2>>`, `2>`) is consumed by the attached-form
chain with an empty remainder: it does not reach argv, but it sets the
corresponding stream spec to the empty path (overwriting any earlier
spec for that stream; the empty path is treated downstream as no
redirection).  A trailing bare ">" matches nothing and is appended to
argv. -/
theorem C1_trailing_operator_amended (acc : List String)
    (so : Option String) (sa : Bool) (eo : Option String) (ea : Bool) :
    splitRedLoop [">>"] acc so sa eo ea = ⟨acc, some "", true, eo, ea⟩ ∧
    splitRedLoop ["1>>"] acc so sa eo ea = ⟨acc, some "", true, eo, ea⟩ ∧
    splitRedLoop ["1>"] acc so sa eo ea = ⟨acc, some "", false, eo, ea⟩ ∧
    splitRedLoop ["2>>"] acc so sa eo ea = ⟨acc, so, sa, some "", true⟩ ∧
    splitRedLoop ["2>"] acc so sa eo ea = ⟨acc, so, sa, some "", false⟩ ∧
    splitRedLoop [">"] acc so sa eo ea = ⟨acc ++ [">"], so, sa, eo, ea⟩ ∧
    split_redirection ["cmd", ">>"] = ⟨["cmd"], some "", true, none, false⟩ ∧
    split_redirection ["cmd", ">"] = ⟨["cmd", ">"], none, false, none, false⟩ :=
  ⟨rfl, rfl, rfl, rfl, rfl, rfl, rfl, rfl⟩

/-- C3 (counterexample).  The claim includes bare ">" in the attached
token shape, but split_redirection has no startswith branch for a bare
">" prefix: the token ">file" is appended to argv unchanged and no
stdout spec is set. -/
theorem C3_counterexample :
    split_redirection [">file"] = ⟨[">file"], none, false, none, false⟩ :=
  rfl

/-- C3 (amended).  The attached token shape is recognized for the five
operators that have a startswith branch, in source priority order: a
token with prefix "1>>" or ">>" sets stdout to (remainder, append); a
token with prefix "1>" (and not "1>>") sets stdout to (remainder,
truncate); prefixes "2>>" and "2>" (not "2>>") set stderr likewise.  A
token starting with bare ">" but not ">>" is NOT treated as a
redirection: it is appended to argv. -/
theorem C3_attached_operator_amended (t : String) :
    (strStartsWith t "1>>" = true →
      split_redirection [t] = ⟨[], some (strDrop t 3), true, none, false⟩) ∧
    (strStartsWith t ">>" = true →
      split_redirection [t] = ⟨[], some (strDrop t 2), true, none, false⟩) ∧
    (strStartsWith t "1>" = true → strStartsWith t "1>>" = false →
      split_redirection [t] = ⟨[], some (strDrop t 2), false, none, false⟩) ∧
    (strStartsWith t "2>>" = true →
      split_redirection [t] = ⟨[], none, false, some (strDrop t 3), true⟩) ∧
    (strStartsWith t "2>" = true → strStartsWith t "2>>" = false →
      split_redirection [t] = ⟨[], none, false, some (strDrop t 2), false⟩) ∧
    (strStartsWith t ">" = true → strStartsWith t ">>" = false →
      split_redirection [t] = ⟨[t], none, false, none, false⟩) := by
  refine ⟨?_, ?_, ?_, ?_, ?_, ?_⟩
  · intro h1
    obtain ⟨l2, hl⟩ := (isPrefixCh_true_iff _ _).mp h1
    obtain ⟨ld⟩ := t
    subst hl
    rfl
  · intro h1
    obtain ⟨l2, hl⟩ := (isPrefixCh_true_iff _ _).mp h1
    obtain ⟨ld⟩ := t
    subst hl
    rfl
  · intro h1 h13
    obtain ⟨l2, hl⟩ := (isPrefixCh_true_iff _ _).mp h1
    obtain ⟨ld⟩ := t
    subst hl
    cases l2 with
    | nil => rfl
    | cons c l3 =>
        simp only [strStartsWith, isPrefixCh, List.cons_append,
          List.nil_append, Bool.and_eq_false_iff, Bool.and_true] at h13
        rcases h13 with h13 | h13 | h13
        · exact absurd h13 (by decide)
        · exact absurd h13 (by decide)
        · simp only [split_redirection, splitRedLoop, applyAttached,
            classifyAttached, strStartsWith, isPrefixCh, List.cons_append,
            List.nil_append]
          rw [h13]
          rfl
  · intro h1
    obtain ⟨l2, hl⟩ := (isPrefixCh_true_iff _ _).mp h1
    obtain ⟨ld⟩ := t
    subst hl
    rfl
  · intro h1 h13
    obtain ⟨l2, hl⟩ := (isPrefixCh_true_iff _ _).mp h1
    obtain ⟨ld⟩ := t
    subst hl
    cases l2 with
    | nil => rfl
    | cons c l3 =>
        simp only [strStartsWith, isPrefixCh, List.cons_append,
          List.nil_append, Bool.and_eq_false_iff, Bool.and_true] at h13
        rcases h13 with h13 | h13 | h13
        · exact absurd h13 (by decide)
        · exact absurd h13 (by decide)
        · simp only [split_redirection, splitRedLoop, applyAttached,
            classifyAttached, strStartsWith, isPrefixCh, List.cons_append,
            List.nil_append]
          rw [h13]
          rfl
  · intro h1 h13
    obtain ⟨l2, hl⟩ := (isPrefixCh_true_iff _ _).mp h1
    obtain ⟨ld⟩ := t
    subst hl
    cases l2 with
    | nil => rfl
    | cons c l3 =>
        simp only [strStartsWith, isPrefixCh, List.cons_append,
          List.nil_append, Bool.and_eq_false_iff, Bool.and_true] at h13
        rcases h13 with h13 | h13
        · exact absurd h13 (by decide)
        · simp only [split_redirection, splitRedLoop, applyAttached,
            classifyAttached, strStartsWith, isPrefixCh, List.cons_append,
            List.nil_append]
          rw [h13]
          rfl

/-- C3 (witness).  The amended attached-form behavior at a concrete
token: "1>out" sets stdout to ("out", truncate) and contributes
nothing to argv. -/
theorem C3_attached_operator_amended_witness :
    split_redirection ["1>out"] =
      ⟨[], some (strDrop "1>out" 2), false, none, false⟩ :=
  (C3_attached_operator_amended "1>out").2.2.1 (by decide) (by decide)

/-- C7.  For a standalone `cd <dir>` whose resolved target (HOME for
"~", the path itself when absolute, current-directory-relative
otherwise) is not an existing directory, the shell emits
"cd: <dir>: No such file or directory" to stderr and the working
directory is unchanged. -/
theorem C7_cd_nonexistent_dir (isdir chdirOk : String → Bool)
    (home : Option String) (cwd dir : String) :
    (∀ h : String, home = some h → isdir h = false →
      cd_builtin isdir chdirOk home cwd ["~"] = ⟨cwd, [cdErr "~"]⟩) ∧
    (home = none →
      cd_builtin isdir chdirOk home cwd ["~"] = ⟨cwd, [cdErr "~"]⟩) ∧
    (strStartsWith dir "/" = true → isdir dir = false →
      cd_builtin isdir chdirOk home cwd [dir] = ⟨cwd, [cdErr dir]⟩) ∧
    (dir ≠ "~" → strStartsWith dir "/" = false →
      isdir (pyJoin cwd dir) = false →
      cd_builtin isdir chdirOk home cwd [dir] = ⟨cwd, [cdErr dir]⟩) := by
  refine ⟨?_, ?_, ?_, ?_⟩
  · intro h hh hd
    subst hh
    simp [cd_builtin, hd]
  · intro hh
    subst hh
    simp [cd_builtin]
  · intro hs hd
    have hne : dir ≠ "~" := by
      intro he
      subst he
      exact absurd hs (by decide)
    simp [cd_builtin, hne, hs, hd]
  · intro hne hs hd
    simp [cd_builtin, hne, hs, hd]

/-- C7 (witness).  cd to the nonexistent absolute directory "/nope"
from "/home": the error message is emitted and the working directory
stays "/home". -/
theorem C7_cd_nonexistent_dir_witness :
    cd_builtin (fun _ => false) (fun _ => true) none "/home" ["/nope"] =
      ⟨"/home", [cdErr "/nope"]⟩ :=
  (C7_cd_nonexistent_dir (fun _ => false) (fun _ => true) none "/home"
    "/nope").2.2.1 (by decide) rfl

/-- C8.  `history -a <file>` appends exactly the log entries at
indices at or beyond the watermark, leaves the log unchanged, and sets
the watermark to the current log length; consequently iterating the
operation N+1 times with no pushes in between equals doing it once
(calls after the first append nothing). -/
theorem C8_history_append_watermark :
    (∀ st : HistState,
      (history_append st).file = st.file ++ st.log.drop st.watermark ∧
      (history_append st).watermark = st.log.length ∧
      (history_append st).log = st.log) ∧
    (∀ (st : HistState) (n : Nat),
      history_append^[n + 1] st = history_append st) := by
  constructor
  · intro st
    exact ⟨rfl, rfl, rfl⟩
  · intro st n
    induction n with
    | zero => rfl
    | succ k ih =>
        rw [Function.iterate_succ_apply', ih, history_append_idem]

/-- C10.  `history -r`, `history -w`, `history -a` with no file
argument fall through the file-mode checks (which require a second
argument): no file effect and no error, the flag is parsed as a
non-integer count, and the whole log is printed with 1-based indices,
exactly like plain `history`. -/
theorem C10_history_flag_without_file (hist : List String) :
    history_builtin hist ["-r"] = HistEffect.printLines (numberFrom 1 hist) ∧
    history_builtin hist ["-w"] = HistEffect.printLines (numberFrom 1 hist) ∧
    history_builtin hist ["-a"] = HistEffect.printLines (numberFrom 1 hist) ∧
    history_builtin hist [] = HistEffect.printLines (numberFrom 1 hist) :=
  ⟨rfl, rfl, rfl, rfl⟩

/-- C6.  In double-quoted mode a backslash escapes exactly the four
characters of isDqEscape (dropping the backslash), and before any
other character both the backslash and that character are appended;
end to end, tokenizing the line `echo "a\\b\$c\d"` yields the
argument `a\b$c\d`. -/
theorem C6_double_quote_backslash :
    (∀ (d : Char) (rest cur : List Char) (acc : List String),
      parseLoop (bslash :: d :: rest) PMode.doub cur acc =
        parseLoop rest PMode.doub
          (cur ++ (if isDqEscape d then [d] else [bslash, d])) acc) ∧
    parse_command_line "echo \"a\\\\b\\$c\\d\"" = ["echo", "a\\b$c\\d"] := by
  constructor
  · intro d rest cur acc
    have hbd : ¬(bslash = dquote) := by decide
    cases hd : isDqEscape d <;> simp [parseLoop, hd, hbd]
  · rfl

/-- C2 (counterexample).  The claim says a redirection open failure
aborts the pipeline before any child is launched.  With a resolvable
command and an unopenable stdout target, the trace still contains the
launch of stage 0 after the reported open failure. -/
theorem C2_counterexample :
    execute_pipeline_model (fun _ => some "/bin/x") (fun _ => false)
      [["cmd", ">", "f"]] =
      [PEvent.openFailed "f", PEvent.launched 0, PEvent.reaped 0] :=
  rfl

/-- C2 (amended).  A failure to open a redirection file is reported to
stderr (the openFailed event) but does NOT abort the pipeline: for any
pipeline that passes parsing and resolution, every stage is still
launched, and every redirection file that did open successfully is
closed by the end of the trace (after reaping), not at failure time. -/
theorem C2_open_failure_amended (resolve : String → Option String)
    (openOk : String → Bool) (stages : List (List String))
    (h0 : stages ≠ [])
    (h1 : (stages.map split_redirection).any
      (fun p => p.cmd_args.isEmpty) = false)
    (h2 : firstUnresolved resolve (stages.map split_redirection) = none) :
    (∀ i : Nat, i < stages.length →
      PEvent.launched i ∈ execute_pipeline_model resolve openOk stages) ∧
    (∀ p ∈ stages.map split_redirection, ∀ f : String,
      ((open_redir_file openOk p.stdout_redir_file p.stdout_append).2 = some f ∨
       (open_redir_file openOk p.stderr_redir_file p.stderr_append).2 = some f) →
      PEvent.fileClosed f ∈ execute_pipeline_model resolve openOk stages) := by
  have hne : stages.isEmpty = false := by
    cases stages with
    | nil => exact absurd rfl h0
    | cons a t => rfl
  constructor
  · intro i hi
    have hmem : PEvent.launched i ∈
        (List.range (List.map split_redirection stages).length).map
          PEvent.launched := by
      rw [List.length_map]
      exact List.mem_map_of_mem _ (List.mem_range.mpr hi)
    simp only [execute_pipeline_model, hne, h1, h2, Bool.false_eq_true,
      if_false, List.mem_append]
    tauto
  · intro p hp f hf
    have hclose : PEvent.fileClosed f ∈
        ((open_redir_file openOk p.stdout_redir_file p.stdout_append).2.toList ++
         (open_redir_file openOk p.stderr_redir_file p.stderr_append).2.toList).map
          PEvent.fileClosed := by
      rcases hf with hf | hf <;> rw [hf] <;> simp
    have hflat : PEvent.fileClosed f ∈
        (List.map split_redirection stages).flatMap (fun q =>
          ((open_redir_file openOk q.stdout_redir_file q.stdout_append).2.toList ++
           (open_redir_file openOk q.stderr_redir_file q.stderr_append).2.toList).map
            PEvent.fileClosed) :=
      List.mem_flatMap.mpr ⟨p, hp, hclose⟩
    simp only [execute_pipeline_model, hne, h1, h2, Bool.false_eq_true,
      if_false, List.mem_append]
    tauto

/-- C2 (witness).  A concrete pipeline whose only stage has an
unopenable stdout redirection: the stage is launched anyway. -/
theorem C2_open_failure_amended_witness :
    PEvent.launched 0 ∈ execute_pipeline_model (fun _ => some "/bin/y")
      (fun _ => false) [["cmdw", ">", "g"]] :=
  (C2_open_failure_amended (fun _ => some "/bin/y") (fun _ => false)
    [["cmdw", ">", "g"]] (by decide) (by decide) rfl).1 0 (by decide)

/-- C4 (counterexample).  The claim says no redirection target is
created or truncated when the command is unresolvable.  In the
standalone path of main, the stdout target "out" is opened in truncate
mode and closed (lines 570-577) before the not-found message. -/
theorem C4_counterexample :
    main_single_model (fun _ => none) (fun _ => true)
      ["nosuch", ">", "out"] =
      [PEvent.fileOpened "out" false, PEvent.fileClosed "out",
       PEvent.errMsg ("nosuch: command not found")] :=
  rfl

/-- C4 (amended).  In execute_pipeline (lines with a pipe separator),
a resolution failure emits "<name>: command not found" and aborts
before any file is opened, any pipe created or any child launched: the
trace is exactly the error message.  In the standalone path, however,
the redirection targets are created/truncated BEFORE resolution: an
unresolvable command still produces the pre-touch events followed by
the not-found message (and no launch). -/
theorem C4_resolution_failure_amended :
    (∀ (resolve : String → Option String) (openOk : String → Bool)
       (stages : List (List String)) (name : String),
      stages ≠ [] →
      (stages.map split_redirection).any
        (fun p => p.cmd_args.isEmpty) = false →
      firstUnresolved resolve (stages.map split_redirection) = some name →
      execute_pipeline_model resolve openOk stages =
        [PEvent.errMsg (name ++ ": command not found")]) ∧
    (∀ (resolve : String → Option String) (openOk : String → Bool)
       (parts : List String) (command : String) (rest : List String),
      (split_redirection parts).cmd_args = command :: rest →
      builtins.contains command = false →
      resolve command = none →
      main_single_model resolve openOk parts =
        touchFile openOk (split_redirection parts).stderr_redir_file
          (split_redirection parts).stderr_append ++
        touchFile openOk (split_redirection parts).stdout_redir_file
          (split_redirection parts).stdout_append ++
        [PEvent.errMsg (command ++ ": command not found")]) := by
  constructor
  · intro resolve openOk stages name h0 h1 h2
    have hne : stages.isEmpty = false := by
      cases stages with
      | nil => exact absurd rfl h0
      | cons a t => rfl
    simp [execute_pipeline_model, hne, h1, h2]
  · intro resolve openOk parts command rest hcmd hb hres
    have hb2 : command ∉ builtins := by simpa using hb
    simp [main_single_model, hcmd, hb2, hres, List.append_assoc]

/-- C4 (witness).  A concrete standalone command with an unresolvable
name and a stdout redirection: the trace is the pre-touch of the
target followed by the not-found message. -/
theorem C4_resolution_failure_amended_witness :
    main_single_model (fun _ => none) (fun _ => true)
      ["nosuch2", ">", "o"] =
      touchFile (fun _ => true)
        (split_redirection ["nosuch2", ">", "o"]).stderr_redir_file
        (split_redirection ["nosuch2", ">", "o"]).stderr_append ++
      touchFile (fun _ => true)
        (split_redirection ["nosuch2", ">", "o"]).stdout_redir_file
        (split_redirection ["nosuch2", ">", "o"]).stdout_append ++
      [PEvent.errMsg ("nosuch2: command not found")] :=
  C4_resolution_failure_amended.2 (fun _ => none) (fun _ => true)
    ["nosuch2", ">", "o"] "nosuch2" [] rfl (by decide) rfl

/-- C5 (counterexample).  The claim says that when the LCP strictly
extends the prefix the completer returns "no match" for every state
at least 1.  With candidates "tes1"/"tes2" for prefix "te" the LCP
"tes" strictly extends "te", yet state 1 returns "tes2". -/
theorem C5_counterexample :
    2 ≤ (completer_matches ["tes1", "tes2"] "te").length ∧
    longestCommonPrefix (completer_matches ["tes1", "tes2"] "te") = "tes" ∧
    ("te" : String).length <
      (longestCommonPrefix (completer_matches ["tes1", "tes2"] "te")).length ∧
    external_and_builtin_completer (fun _ => none) "" ["tes1", "tes2"]
      "te" 1 = some "tes2" := by
  decide

/-- C5 (amended).  With at least 2 candidates: when their LCP is
non-empty and strictly extends the input prefix, the completer returns
the LCP at state 0 and the state-th candidate (0-indexed) at every
later state until the list is exhausted, after which it returns no
match; the completer does not stop after the LCP (stopping only arises
because the line editor restarts at state 0 once the input advances).
When the LCP does not strictly extend the prefix, it returns the
state-th candidate until exhausted. -/
theorem C5_completer_protocol_amended
    (listdir : String → Option (List String)) (cwd : String)
    (execs : List String) (text : String)
    (hs : text.data.contains '/' = false)
    (h2 : 2 ≤ (completer_matches execs text).length) :
    ((longestCommonPrefix (completer_matches execs text) ≠ "" ∧
      text.length <
        (longestCommonPrefix (completer_matches execs text)).length) →
      ∀ state : Nat,
        external_and_builtin_completer listdir cwd execs text state =
          if state = 0 then
            some (longestCommonPrefix (completer_matches execs text))
          else (completer_matches execs text).get? state) ∧
    (¬(longestCommonPrefix (completer_matches execs text) ≠ "" ∧
      text.length <
        (longestCommonPrefix (completer_matches execs text)).length) →
      ∀ state : Nat,
        external_and_builtin_completer listdir cwd execs text state =
          (completer_matches execs text).get? state) := by
  have hs3 : '/' ∉ text.data := by simpa using hs
  have hext : ∀ st : Nat,
      external_and_builtin_completer listdir cwd execs text st =
        completer_protocol (completer_matches execs text) text st := by
    intro st
    simp [external_and_builtin_completer, hs3]
  rcases hml : completer_matches execs text with _ | ⟨m1, _ | ⟨m2, mr⟩⟩
  · rw [hml] at h2
    simp at h2
  · rw [hml] at h2
    simp at h2
  · constructor
    · intro hlcp state
      obtain ⟨hlne, hlt⟩ := hlcp
      rw [hext state, hml]
      simp only [completer_protocol]
      by_cases h0 : state = 0
      · subst h0
        rw [if_pos ⟨rfl, hlne, hlt⟩]
        simp
      · rw [if_neg (fun hc => h0 hc.1), if_neg h0]
        by_cases hlen : state < (m1 :: m2 :: mr).length
        · rw [if_pos hlen]
        · rw [if_neg hlen]
          exact (List.get?_eq_none.mpr (by omega)).symm
    · intro hno state
      rw [hext state, hml]
      simp only [completer_protocol]
      rw [if_neg (fun hc => hno ⟨hc.2.1, hc.2.2⟩)]
      by_cases hlen : state < (m1 :: m2 :: mr).length
      · rw [if_pos hlen]
      · rw [if_neg hlen]
        exact (List.get?_eq_none.mpr (by omega)).symm

/-- C5 (witness).  The amended protocol at a concrete query: with
candidates "tes1"/"tes2" and prefix "te", state 0 returns the LCP
"tes". -/
theorem C5_completer_protocol_amended_witness :
    external_and_builtin_completer (fun _ => none) "" ["tes1", "tes2"]
      "te" 0 = some "tes" := by
  rw [(C5_completer_protocol_amended (fun _ => none) "" ["tes1", "tes2"]
    "te" (by decide) (by decide)).1 ⟨by decide, by decide⟩ 0]
  decide

/- Helper lemmas for the tokenizer round trip. -/

theorem str_data_append (a b : String) : (a ++ b).data = a.data ++ b.data :=
  rfl

theorem str_mk_data (s : String) : String.mk s.data = s := rfl

theorem tokSpecial_false_parts (c : Char) (h : tokSpecial c = false) :
    pyIsSpace c = false ∧ c ≠ squote ∧ c ≠ dquote ∧ c ≠ bslash := by
  simp only [tokSpecial, Bool.or_eq_false_iff, beq_eq_false_iff_ne] at h
  tauto

theorem parseLoop_norm_space (c : Char) (rest cur : List Char)
    (acc : List String) (hsp : pyIsSpace c = true) :
    parseLoop (c :: rest) PMode.norm cur acc =
      parseLoop rest PMode.norm [] (finishTok cur acc) := by
  rw [parseLoop.eq_def]
  simp [hsp]

theorem parseLoop_norm_plain (c : Char) (rest cur : List Char)
    (acc : List String) (h1 : pyIsSpace c = false) (h2 : c ≠ squote)
    (h3 : c ≠ dquote) (h4 : c ≠ bslash) :
    parseLoop (c :: rest) PMode.norm cur acc =
      parseLoop rest PMode.norm (cur ++ [c]) acc := by
  rw [parseLoop.eq_def]
  simp [h1, h2, h3, h4]

/- A word of plain characters (no whitespace, quotes or backslash) is
   consumed verbatim into the current token by the normal mode. -/
theorem parseLoop_plain_word (w : List Char) :
    ∀ (rest cur : List Char) (acc : List String),
      (∀ c ∈ w, tokSpecial c = false) →
      parseLoop (w ++ rest) PMode.norm cur acc =
        parseLoop rest PMode.norm (cur ++ w) acc := by
  induction w with
  | nil =>
      intro rest cur acc _
      simp
  | cons c w2 ih =>
      intro rest cur acc hw
      obtain ⟨h1, h2, h3, h4⟩ := tokSpecial_false_parts c (hw c (by simp))
      rw [List.cons_append, parseLoop_norm_plain c _ cur acc h1 h2 h3 h4]
      rw [ih rest (cur ++ [c]) acc (fun d hd => hw d (by simp [hd]))]
      simp

/- Tokenizing a single-space join of nonempty plain words appends
   exactly those words to the accumulated token list. -/
theorem parseLoop_joinSp (args : List String) :
    ∀ acc : List String,
      (∀ a ∈ args, a.data ≠ [] ∧ ∀ c ∈ a.data, tokSpecial c = false) →
      parseLoop (joinSp args).data PMode.norm [] acc = acc ++ args := by
  induction args with
  | nil =>
      intro acc _
      simp [joinSp, parseLoop, finishTok]
  | cons a t ih =>
      intro acc h
      obtain ⟨ha1, ha2⟩ := h a (by simp)
      have hfin : finishTok a.data acc = acc ++ [a] := by
        simp [finishTok, List.isEmpty_iff, ha1, str_mk_data]
      cases t with
      | nil =>
          have hw := parseLoop_plain_word a.data [] [] acc ha2
          rw [List.append_nil] at hw
          show parseLoop a.data PMode.norm [] acc = acc ++ [a]
          rw [hw]
          rw [parseLoop.eq_def]
          simpa using hfin
      | cons b t2 =>
          have hdata : (joinSp (a :: b :: t2)).data =
              a.data ++ (' ' :: (joinSp (b :: t2)).data) := by
            show ((a ++ " ") ++ joinSp (b :: t2)).data = _
            rw [str_data_append, str_data_append]
            simp
          rw [hdata,
            parseLoop_plain_word a.data (' ' :: (joinSp (b :: t2)).data)
              [] acc ha2]
          rw [List.nil_append,
            parseLoop_norm_space ' ' _ a.data acc (by decide)]
          rw [hfin, ih (acc ++ [a]) (fun x hx => h x (by simp [hx]))]
          simp

/-- C9 (counterexample).  The claim quantifies over all lists whose
elements contain no whitespace, quotes or backslashes; the singleton
list holding the empty string satisfies that hypothesis vacuously, yet
joining gives the empty line, which tokenizes to the empty list, not
to the singleton. -/
theorem C9_counterexample :
    parse_command_line (joinSp [""]) ≠ [""] := by
  decide

/-- C9 (amended).  For every list of NONEMPTY strings whose characters
contain no whitespace, no single or double quotes and no backslashes,
tokenizing the single-space join returns exactly the list. -/
theorem C9_tokenize_join_roundtrip_amended (args : List String)
    (h : ∀ a ∈ args, a ≠ "" ∧ ∀ c ∈ a.data, tokSpecial c = false) :
    parse_command_line (joinSp args) = args := by
  have h2 : ∀ a ∈ args, a.data ≠ [] ∧ ∀ c ∈ a.data, tokSpecial c = false := by
    intro a ha
    obtain ⟨hne, hchars⟩ := h a ha
    refine ⟨?_, hchars⟩
    intro hd
    apply hne
    obtain ⟨l⟩ := a
    subst hd
    rfl
  have h3 := parseLoop_joinSp args [] h2
  simpa [parse_command_line] using h3

/-- C9 (witness).  The round trip at a concrete argv: joining and
retokenizing ["ls", "-la"] returns it unchanged. -/
theorem C9_tokenize_join_roundtrip_amended_witness :
    parse_command_line (joinSp ["ls", "-la"]) = ["ls", "-la"] :=
  C9_tokenize_join_roundtrip_amended ["ls", "-la"] (by decide)

end MiniShell
